import Mathlib

/-!
# Verification of the ORION SNN consciousness assessor

Shallow embedding of `src/orion_snn_consciousness.py`.

Modelling conventions:
* Python numbers (ints and floats) are modelled as `ℚ`.  The module only
  adds, multiplies, divides by constants, compares, and rounds its inputs,
  and every constant in the source is a short decimal, so rational
  arithmetic is an exact model of the intended real-number semantics
  (binary floating-point rounding noise is not modelled).
* `datetime.now(timezone.utc).isoformat()` is an external input and is
  passed in as an explicit `now : String` argument.
* The mutable `self` object (`assessments`, `proof_chain`) becomes an
  explicit `AssessorState` threaded through `assess_from_spikes`.
* The input dictionary becomes a structure of `Option` fields; an absent
  key is `none` and `dict.get(k, dflt)` is `Option.getD`.
* `json.dumps(..., sort_keys=True, default=str)` can only raise for a
  self-referential container nested in the caller-supplied
  `population_oscillations` mapping (with `default=str` every other value
  is stringified).  Extra, non-band entries of that mapping are modelled by
  `ExtraVal`, whose `circref` constructor stands for such an unserializable
  value; serialization failure is surfaced as `Except`.
-/

namespace Orion

/-- A value stored in a computed indicator record: Python `bool`, number,
or string.  `is True` in Python holds exactly for the `bool true` case. -/
inductive PyVal where
  | bool (b : Bool)
  | num (q : ℚ)
  | str (s : String)
deriving DecidableEq

/-- A caller-supplied value under a non-band key of
`population_oscillations`:  a JSON-serializable number, an arbitrary
object (which `default=str` renders via its string form), or a
self-referential container on which `json.dumps` raises. -/
inductive ExtraVal where
  | num (q : ℚ)
  | obj (s : String)
  | circref
deriving DecidableEq

/-- The `population_oscillations` mapping: the three band keys the scoring
code reads, plus any other entries (`extra`, in insertion order). -/
structure Oscillations where
  gamma : Option ℚ
  theta : Option ℚ
  alpha : Option ℚ
  extra : List (String × ExtraVal)
deriving DecidableEq

/-- The empty mapping `{}`. -/
def Oscillations.empty : Oscillations := ⟨none, none, none, []⟩

/-- The caller-supplied `spike_data` record (§3 of the spec): every field
optional.  `none` models an absent key. -/
structure SpikeData where
  n_neurons : Option ℚ
  synchrony_index : Option ℚ
  mean_firing_rate : Option ℚ
  recurrence_depth : Option ℚ
  network_recurrence : Option Bool
  has_ei_balance : Option Bool
  has_synaptic_plasticity : Option Bool
  has_lateral_inhibition : Option Bool
  has_top_down_connections : Option Bool
  has_attention_mechanism : Option Bool
  population_oscillations : Option Oscillations
  information_transfer : Option ℚ
deriving DecidableEq

/-- The record with every field absent (`{}`). -/
def emptyRecord : SpikeData :=
  ⟨none, none, none, none, none, none, none, none, none, none, none, none⟩

/-! ## Python `round`

Python 3's `round(x, n)` rounds to `n` decimal digits, ties to even. -/

/-- Round to the nearest integer, ties to the even integer. -/
def roundHalfEven (q : ℚ) : ℤ :=
  if q - ⌊q⌋ < 1/2 then ⌊q⌋
  else if 1/2 < q - ⌊q⌋ then ⌊q⌋ + 1
  else if ⌊q⌋ % 2 = 0 then ⌊q⌋ else ⌊q⌋ + 1

/-- Python `round(x, ndigits)`. -/
def pyRound (ndigits : ℕ) (x : ℚ) : ℚ :=
  (roundHalfEven (x * 10 ^ ndigits) : ℚ) / 10 ^ ndigits

/-! ## The scoring computation (`assess_from_spikes`, lines 52–142)

Each Python local becomes a function of the input record, keeping the
source's names (`rec` is a Lean keyword, hence `rec'`). -/

/-- Source: `n = spike_data.get("n_neurons", 0)` -/
def n (d : SpikeData) : ℚ := d.n_neurons.getD 0

/-- Source: `sync = spike_data.get("synchrony_index", 0)` -/
def sync (d : SpikeData) : ℚ := d.synchrony_index.getD 0

/-- Source: `rate = spike_data.get("mean_firing_rate", 0)` -/
def rate (d : SpikeData) : ℚ := d.mean_firing_rate.getD 0

/-- Source: `rec = spike_data.get("recurrence_depth", 0)` -/
def rec' (d : SpikeData) : ℚ := d.recurrence_depth.getD 0

/-- Source: `oscillations = spike_data.get("population_oscillations", {})` -/
def oscillations (d : SpikeData) : Oscillations :=
  d.population_oscillations.getD Oscillations.empty

/-- Source: `gamma_power = oscillations.get("gamma", 0)` -/
def gamma_power (d : SpikeData) : ℚ := (oscillations d).gamma.getD 0

/-- Source: `theta_power = oscillations.get("theta", 0)` -/
def theta_power (d : SpikeData) : ℚ := (oscillations d).theta.getD 0

/-- Source: `alpha_power = oscillations.get("alpha", 0)` -/
def alpha_power (d : SpikeData) : ℚ := (oscillations d).alpha.getD 0

/-- Source: `has_rec = spike_data.get("network_recurrence", False)` -/
def has_rec (d : SpikeData) : Bool := d.network_recurrence.getD false

/-- RPT raw score (lines 66–71).  In Python the conditional expression
wraps the whole product: `0.3 * min(1, gamma_power / 0.5) if gamma_power > 0
else 0`. -/
def rpt_score (d : SpikeData) : ℚ :=
  min 1
    ((if has_rec d then 0.3 else 0) +
     (if rec' d > 3 then 0.2 else 0) +
     (if d.has_top_down_connections.getD false then 0.2 else 0) +
     (if gamma_power d > 0 then 0.3 * min 1 (gamma_power d / 0.5) else 0))

/-- Source: `has_broadcast = sync > 0.5 and n > 500` -/
def has_broadcast (d : SpikeData) : Bool :=
  decide (sync d > 0.5 ∧ n d > 500)

/-- Source: `ignition = gamma_power > 0.4 and sync > 0.6` -/
def ignition (d : SpikeData) : Bool :=
  decide (gamma_power d > 0.4 ∧ sync d > 0.6)

/-- GWT raw score (lines 82–86). -/
def gwt_score (d : SpikeData) : ℚ :=
  min 1
    ((if has_broadcast d then 0.4 else 0) +
     (if ignition d then 0.3 else 0) +
     0.3 * d.information_transfer.getD 0)

/-- Source: `has_hierarchy = rec > 4 and spike_data.get("has_top_down_connections", False)` -/
def has_hierarchy (d : SpikeData) : Bool :=
  decide (rec' d > 4) && d.has_top_down_connections.getD false

/-- HOT raw score (lines 96–99). -/
def hot_score (d : SpikeData) : ℚ :=
  min 1
    ((if has_hierarchy d then 0.4 else 0) +
     (if d.has_lateral_inhibition.getD false then 0.3 else 0) +
     (if alpha_power d > 0 then 0.3 * min 1 (alpha_power d / 0.5) else 0))

/-- Source: `has_stdp = spike_data.get("has_synaptic_plasticity", False)` -/
def has_stdp (d : SpikeData) : Bool := d.has_synaptic_plasticity.getD false

/-- PP raw score (lines 110–113). -/
def pp_score (d : SpikeData) : ℚ :=
  min 1
    ((if has_stdp d then 0.4 else 0) +
     (if d.has_top_down_connections.getD false then 0.3 else 0) +
     (if theta_power d > 0 then 0.3 * min 1 (theta_power d / 0.5) else 0))

/-- Source: `has_attention = spike_data.get("has_lateral_inhibition", False) and sync > 0.3` -/
def has_attention (d : SpikeData) : Bool :=
  d.has_lateral_inhibition.getD false && decide (sync d > 0.3)

/-- AST raw score (lines 124–127). -/
def ast_score (d : SpikeData) : ℚ :=
  min 1
    ((if has_attention d then 0.5 else 0) +
     (if d.has_attention_mechanism.getD false then 0.5 else 0))

/-- The five indicator records, in insertion order (lines 72–132): each is
the association list the Python code builds, fields in source order. -/
def indicatorsOf (d : SpikeData) : List (String × List (String × PyVal)) :=
  [("RPT",
     [("recurrent_processing", .bool (has_rec d)),
      ("feedback_depth", .num (rec' d)),
      ("gamma_oscillations", .bool (decide (gamma_power d > 0.2))),
      ("score", .num (pyRound 3 (rpt_score d)))]),
   ("GWT",
     [("global_broadcast", .bool (has_broadcast d)),
      ("ignition_detected", .bool (ignition d)),
      ("information_transfer", .num (d.information_transfer.getD 0)),
      ("score", .num (pyRound 3 (gwt_score d)))]),
   ("HOT",
     [("hierarchical_processing", .bool (has_hierarchy d)),
      ("lateral_inhibition", .bool (d.has_lateral_inhibition.getD false)),
      ("alpha_modulation", .bool (decide (alpha_power d > 0.2))),
      ("score", .num (pyRound 3 (hot_score d)))]),
   ("PP",
     [("synaptic_plasticity", .bool (has_stdp d)),
      ("top_down_predictions", .bool (d.has_top_down_connections.getD false)),
      ("theta_oscillations", .bool (decide (theta_power d > 0.2))),
      ("score", .num (pyRound 3 (pp_score d)))]),
   ("AST",
     [("attention_mechanism", .bool (has_attention d)),
      ("attention_schema", .bool (d.has_attention_mechanism.getD false)),
      ("score", .num (pyRound 3 (ast_score d)))])]

/-- Source: `THEORIES = ["RPT", "GWT", "HOT", "PP", "AST"]` -/
def THEORIES : List String := ["RPT", "GWT", "HOT", "PP", "AST"]

/-- Source: `indicators[t]["score"]`: look a theory's stored score up in the
computed indicator records.  Both keys are always present by construction;
the `0` fallbacks model Python's `KeyError`-free path and never fire. -/
def getScore (ind : List (String × List (String × PyVal))) (t : String) : ℚ :=
  match ind.lookup t with
  | some fields =>
    match fields.lookup "score" with
    | some (.num q) => q
    | _ => 0
  | none => 0

/-- Source: `weights = [0.20, 0.25, 0.20, 0.20, 0.15]` -/
def weights : List ℚ := [0.20, 0.25, 0.20, 0.20, 0.15]

/-- Source: `credence = sum(s * w for s, w in zip(scores, weights))` where
`scores = [indicators[t]["score"] for t in self.THEORIES]`. -/
def credence (d : SpikeData) : ℚ :=
  ((THEORIES.map (getScore (indicatorsOf d))).zip weights).foldl
    (fun acc p => acc + p.1 * p.2) 0

/-- Source: `v is True` for an indicator value. -/
def PyVal.isPyTrue : PyVal → Bool
  | .bool true => true
  | _ => false

/-- One step of the indicator count: add 1 exactly when the key is not
`"score"` and the value is Python's `True`. -/
def countKV (acc : ℕ) (kv : String × PyVal) : ℕ :=
  if kv.1 ≠ "score" ∧ kv.2.isPyTrue then acc + 1 else acc

/-- Source: `total_ind = sum(sum(1 for k, v in indicators[t].items() if k != "score"
and v is True) for t in self.THEORIES)` (lines 139–142). -/
def total_ind (d : SpikeData) : ℕ :=
  (THEORIES.map (fun t =>
    (((indicatorsOf d).lookup t).getD []).foldl countKV 0)).foldl (· + ·) 0

/-! ## SHA-256 (`hashlib.sha256`)

A direct implementation of FIPS 180-4 over byte lists, with 32-bit words
as `Nat` reduced modulo `2 ^ 32`. -/

namespace SHA256

/-- Addition modulo `2 ^ 32`. -/
def add32 (a b : Nat) : Nat := (a + b) % 2 ^ 32

/-- Right rotation of a 32-bit word by `k`. -/
def rotr (k w : Nat) : Nat := ((w >>> k) ||| (w <<< (32 - k))) % 2 ^ 32

/-- Bitwise complement of a 32-bit word. -/
def not32 (w : Nat) : Nat := w ^^^ (2 ^ 32 - 1)

/-- The 64 round constants (FIPS 180-4 §4.2.2, written in decimal). -/
def K : List Nat :=
  [1116352408, 1899447441, 3049323471, 3921009573,
   961987163, 1508970993, 2453635748, 2870763221,
   3624381080, 310598401, 607225278, 1426881987,
   1925078388, 2162078206, 2614888103, 3248222580,
   3835390401, 4022224774, 264347078, 604807628,
   770255983, 1249150122, 1555081692, 1996064986,
   2554220882, 2821834349, 2952996808, 3210313671,
   3336571891, 3584528711, 113926993, 338241895,
   666307205, 773529912, 1294757372, 1396182291,
   1695183700, 1986661051, 2177026350, 2456956037,
   2730485921, 2820302411, 3259730800, 3345764771,
   3516065817, 3600352804, 4094571909, 275423344,
   430227734, 506948616, 659060556, 883997877,
   958139571, 1322822218, 1537002063, 1747873779,
   1955562222, 2024104815, 2227730452, 2361852424,
   2428436474, 2756734187, 3204031479, 3329325298]

/-- The working registers / intermediate hash value. -/
structure Regs where
  a : Nat
  b : Nat
  c : Nat
  d : Nat
  e : Nat
  f : Nat
  g : Nat
  h : Nat
deriving DecidableEq

/-- The initial hash value (FIPS 180-4 §5.3.3, written in decimal). -/
def H0 : Regs :=
  ⟨1779033703, 3144134277, 1013904242, 2773480762,
   1359893119, 2600822924, 528734635, 1541459225⟩

/-- Source: `n` bytes of `v`, big-endian. -/
def beBytes : Nat → Nat → List Nat
  | 0, _ => []
  | k + 1, v => beBytes k (v / 256) ++ [v % 256]

/-- Message padding: append `0x80`, zero bytes to 56 mod 64, then the
bit length as 8 big-endian bytes. -/
def padMessage (msg : List Nat) : List Nat :=
  let z := (56 + 64 - (msg.length + 1) % 64) % 64
  msg ++ [0x80] ++ List.replicate z 0 ++ beBytes 8 (8 * msg.length)

/-- Group bytes into 32-bit big-endian words. -/
def toWords : List Nat → List Nat
  | b0 :: b1 :: b2 :: b3 :: rest =>
    (b0 <<< 24 ||| b1 <<< 16 ||| b2 <<< 8 ||| b3) :: toWords rest
  | _ => []

/-- σ₀ of the message schedule. -/
def sig0 (w : Nat) : Nat := rotr 7 w ^^^ rotr 18 w ^^^ (w >>> 3)

/-- σ₁ of the message schedule. -/
def sig1 (w : Nat) : Nat := rotr 17 w ^^^ rotr 19 w ^^^ (w >>> 10)

/-- Extend 16 words to the 64-word message schedule. -/
def schedule (ws : List Nat) : List Nat :=
  (List.range 48).foldl
    (fun acc i =>
      acc ++ [add32 (add32 (sig1 (acc.getD (i + 14) 0)) (acc.getD (i + 9) 0))
                    (add32 (sig0 (acc.getD (i + 1) 0)) (acc.getD i 0))])
    ws

/-- Σ₀. -/
def bigSig0 (a : Nat) : Nat := rotr 2 a ^^^ rotr 13 a ^^^ rotr 22 a

/-- Σ₁. -/
def bigSig1 (e : Nat) : Nat := rotr 6 e ^^^ rotr 11 e ^^^ rotr 25 e

/-- Ch. -/
def ch (e f g : Nat) : Nat := (e &&& f) ^^^ (not32 e &&& g)

/-- Maj. -/
def maj (a b c : Nat) : Nat := (a &&& b) ^^^ (a &&& c) ^^^ (b &&& c)

/-- One compression round. -/
def roundStep (r : Regs) (kw : Nat × Nat) : Regs :=
  let t1 := add32 (add32 (add32 r.h (bigSig1 r.e)) (add32 (ch r.e r.f r.g) kw.1)) kw.2
  let t2 := add32 (bigSig0 r.a) (maj r.a r.b r.c)
  ⟨add32 t1 t2, r.a, r.b, r.c, add32 r.d t1, r.e, r.f, r.g⟩

/-- Compress one 64-byte block into the running hash value. -/
def compressBlock (hv : Regs) (block : List Nat) : Regs :=
  let ws := schedule (toWords block)
  let r := (K.zip ws).foldl roundStep hv
  ⟨add32 hv.a r.a, add32 hv.b r.b, add32 hv.c r.c, add32 hv.d r.d,
   add32 hv.e r.e, add32 hv.f r.f, add32 hv.g r.g, add32 hv.h r.h⟩

/-- Split into 64-byte blocks. -/
def blocks64 : List Nat → List (List Nat)
  | [] => []
  | x :: xs =>
    ((x :: xs).take 64) :: blocks64 ((x :: xs).drop 64)
termination_by l => l.length
decreasing_by simp [List.length_drop]; omega

/-- Hex digit of a nibble. -/
def hexDigit (v : Nat) : Char := "0123456789abcdef".toList.getD v '0'

/-- A 32-bit word as 8 lowercase hex characters. -/
def wordHex (w : Nat) : List Char :=
  (List.range 8).map (fun i => hexDigit ((w >>> (4 * (7 - i))) &&& 15))

/-- SHA-256 digest of a byte list, as a 64-character lowercase hex
string (`hashlib.sha256(...).hexdigest()`). -/
def sha256HexBytes (msg : List Nat) : String :=
  let final := (blocks64 (padMessage msg)).foldl compressBlock H0
  String.mk
    (wordHex final.a ++ wordHex final.b ++ wordHex final.c ++ wordHex final.d ++
     wordHex final.e ++ wordHex final.f ++ wordHex final.g ++ wordHex final.h)

/-- SHA-256 hex digest of a string's UTF-8 bytes. -/
def sha256Hex (s : String) : String :=
  sha256HexBytes (s.toUTF8.toList.map (fun b => b.toNat))

end SHA256

/-! ## Canonical serialization (`json.dumps(assessment, sort_keys=True, default=str)`)

The assessment has a fixed shape, so the serializer below renders exactly
that shape: objects with keys sorted by code point (as `sort_keys=True`
does), separators `", "` and `": "` (the `json.dumps` defaults), booleans
as `true`/`false`, and strings quoted.  Numbers are rendered in plain
decimal; Python's shortest-repr formatting of binary floats (and its
int/float display distinction, e.g. `15` vs `15.0`) is approximated —
no claim depends on the concrete digest value, only on how the digest is
wired into the assessment and the chain.  String escaping is not modelled:
no string produced by the assessor contains a quote or backslash. -/

/-- Boolean rendering used by `json.dumps`. -/
def renderBool (b : Bool) : String := if b then "true" else "false"

/-- Smallest exponent `k` with `den ∣ 10 ^ k`, if any below 40. -/
def decExp (den : ℕ) : Option ℕ :=
  (List.range 40).find? (fun k => 10 ^ k % den == 0)

/-- Decimal rendering of a rational: integers bare, decimal fractions in
point notation, anything else (unreachable for decimal inputs) as a
fraction. -/
def renderNum (q : ℚ) : String :=
  if q.den = 1 then toString q.num
  else
    match decExp q.den with
    | some k =>
      let m := q.num * (10 ^ k : ℤ) / (q.den : ℤ)
      let digits := Nat.repr m.natAbs
      let pad := (k + 1) - digits.length
      let ds := String.mk (List.replicate pad '0') ++ digits
      (if m < 0 then "-" else "") ++ ds.take (ds.length - k) ++ "." ++
        String.mk (ds.toList.drop (ds.length - k))
    | none => toString q.num ++ "/" ++ toString q.den

/-- Code-point comparison of key strings, as Python string `<`. -/
def charsLt : List Char → List Char → Bool
  | [], [] => false
  | [], _ :: _ => true
  | _ :: _, [] => false
  | a :: as, b :: bs =>
    if a.toNat < b.toNat then true
    else if b.toNat < a.toNat then false
    else charsLt as bs

/-- Key order for `sort_keys=True`. -/
def keyLt (a b : String) : Bool := charsLt a.toList b.toList

/-- Insert a rendered key/value pair into a key-sorted list. -/
def insertSorted (p : String × String) :
    List (String × String) → List (String × String)
  | [] => [p]
  | q :: qs => if keyLt p.1 q.1 then p :: q :: qs else q :: insertSorted p qs

/-- Sort rendered key/value pairs by key (insertion sort, stable). -/
def sortPairs : List (String × String) → List (String × String)
  | [] => []
  | p :: ps => insertSorted p (sortPairs ps)

/-- Render an object from already-rendered key/value pairs, keys sorted. -/
def jobj (pairs : List (String × String)) : String :=
  "\x7b" ++
    String.intercalate ", "
      ((sortPairs pairs).map (fun p => "\"" ++ p.1 ++ "\": " ++ p.2)) ++
  "\x7d"

/-- Render a non-band oscillation value.  The `circref` case never occurs
on the success path: serialization is aborted first (see
`serializeCoreE`). -/
def renderExtraVal : ExtraVal → String
  | .num q => renderNum q
  | .obj s => "\"" ++ s ++ "\""
  | .circref => "\"<circular>\""

/-- Render the echoed `population_oscillations` mapping: only the keys the
caller actually supplied appear. -/
def renderOscillations (o : Oscillations) : String :=
  jobj
    ((match o.gamma with | some v => [("gamma", renderNum v)] | none => []) ++
     (match o.theta with | some v => [("theta", renderNum v)] | none => []) ++
     (match o.alpha with | some v => [("alpha", renderNum v)] | none => []) ++
     o.extra.map (fun p => (p.1, renderExtraVal p.2)))

/-- Render an indicator sub-signal value. -/
def renderPyVal : PyVal → String
  | .bool b => renderBool b
  | .num q => renderNum q
  | .str s => "\"" ++ s ++ "\""

/-! ## The assessment record and the assessor state -/

/-- The `snn_config` echo of key input fields (lines 146–151). -/
structure SnnConfig where
  n_neurons : ℚ
  mean_firing_rate_hz : ℚ
  synchrony : ℚ
  oscillation_bands : Oscillations
deriving DecidableEq

/-- The `summary` mapping (lines 153–156). -/
structure Summary where
  credence : ℚ
  satisfied_indicators : String
deriving DecidableEq

/-- An assessment before the `proof` key is attached (lines 144–157):
exactly the dictionary that is serialized and hashed. -/
structure AssessmentCore where
  timestamp : String
  snn_config : SnnConfig
  indicators : List (String × List (String × PyVal))
  summary : Summary
deriving DecidableEq

/-- The returned assessment: the pre-proof content plus the `proof`
field. -/
structure Assessment where
  core : AssessmentCore
  proof : String
deriving DecidableEq

/-- Build the pre-proof assessment from the input record and the current
timestamp (lines 52–157). -/
def mkCore (d : SpikeData) (now : String) : AssessmentCore :=
  { timestamp := now
    snn_config :=
      { n_neurons := n d
        mean_firing_rate_hz := rate d
        synchrony := sync d
        oscillation_bands := oscillations d }
    indicators := indicatorsOf d
    summary :=
      { credence := pyRound 1 (credence d * 100)
        satisfied_indicators := Nat.repr (total_ind d) ++ "/14" } }

/-- Canonical serialization of the pre-proof assessment (the byte string
hashed at lines 159–161), assuming every value is serializable. -/
def serializeCore (c : AssessmentCore) : String :=
  jobj
    [("timestamp", "\"" ++ c.timestamp ++ "\""),
     ("snn_config", jobj
        [("n_neurons", renderNum c.snn_config.n_neurons),
         ("mean_firing_rate_hz", renderNum c.snn_config.mean_firing_rate_hz),
         ("synchrony", renderNum c.snn_config.synchrony),
         ("oscillation_bands", renderOscillations c.snn_config.oscillation_bands)]),
     ("indicators", jobj (c.indicators.map (fun ti =>
        (ti.1, jobj (ti.2.map (fun kv => (kv.1, renderPyVal kv.2))))))),
     ("summary", jobj
        [("credence", renderNum c.summary.credence),
         ("satisfied_indicators", "\"" ++ c.summary.satisfied_indicators ++ "\"")])]

/-- Does the echoed oscillation mapping contain a value on which
`json.dumps` raises? -/
def Oscillations.hasUnserializable (o : Oscillations) : Bool :=
  o.extra.any (fun p => p.2 == ExtraVal.circref)

/-- Does serializing this assessment raise? -/
def AssessmentCore.hasUnserializable (c : AssessmentCore) : Bool :=
  c.snn_config.oscillation_bands.hasUnserializable

/-- The one failure `json.dumps(..., default=str)` has on this data: a
circular reference (`ValueError`). -/
inductive SerError where
  | circular
deriving DecidableEq

/-- Serialization as the fallible step it is in Python: `json.dumps`
raises on a circular structure, otherwise returns the canonical string. -/
def serializeCoreE (c : AssessmentCore) : Except SerError String :=
  if c.hasUnserializable then .error .circular else .ok (serializeCore c)

/-- The assessor's mutable state: `self.assessments` and
`self.proof_chain`. -/
structure AssessorState where
  assessments : List Assessment
  proof_chain : List String
deriving DecidableEq

/-- Constructor state (lines 28–30): no assessments, chain seeded with the
sentinel. -/
def SNNConsciousnessAssessor.init : AssessorState :=
  { assessments := [], proof_chain := ["GENESIS"] }

/-- The 32-hex-character chain entry for one call: first 32 characters of
the SHA-256 hex digest of the canonical serialization. -/
def chainEntry (d : SpikeData) (now : String) : String :=
  (SHA256.sha256Hex (serializeCore (mkCore d now))).take 32

/-- The assessment a successful call returns. -/
def mkAssessment (d : SpikeData) (now : String) : Assessment :=
  { core := mkCore d now, proof := "sha256:" ++ chainEntry d now }

/-- The full `assess_from_spikes` method (lines 32–166): build the
assessment, serialize and hash it, append the hash to the proof chain, set
the `proof` field, append to the history, and return the assessment.  The
two mutations (lines 162 and 165) happen only after `json.dumps`
succeeded, which the match on `serializeCoreE` mirrors. -/
def assess_from_spikes (self : AssessorState) (spike_data : SpikeData)
    (now : String) : AssessorState × Except SerError Assessment :=
  let assessment := mkCore spike_data now
  match serializeCoreE assessment with
  | .error e => (self, .error e)
  | .ok srep =>
    let proof_hash := (SHA256.sha256Hex srep).take 32
    ({ assessments := self.assessments ++ [⟨assessment, "sha256:" ++ proof_hash⟩],
       proof_chain := self.proof_chain ++ [proof_hash] },
     .ok ⟨assessment, "sha256:" ++ proof_hash⟩)

/-- A sequence of `assess_from_spikes` calls on one assessor, each with its
input record and its timestamp. -/
def runCalls (s : AssessorState) : List (SpikeData × String) → AssessorState
  | [] => s
  | c :: rest => runCalls (assess_from_spikes s c.1 c.2).1 rest

/-- The record `EIRABridge.status` returns (lines 173–179). -/
structure StatusRecord where
  module : String
  assessments : ℕ
  capabilities : List String
deriving DecidableEq

/-- Status adapter read-out: module id, current history length of the
wrapped assessor, fixed capability list. -/
def EIRABridge.status (assessor : AssessorState) : StatusRecord :=
  { module := "ORION-Brian2-Consciousness"
    assessments := assessor.assessments.length
    capabilities :=
      ["snn_consciousness_assessment", "spike_train_analysis",
       "oscillation_mapping", "14_indicator_assessment"] }

/-! ## Helper lemmas -/

section

attribute [local semireducible] Rat.mul Rat.add Rat.sub Rat.inv Rat.ofScientific

/-- Serialization of this call's assessment succeeds (no circular
structure among the echoed oscillation values). -/
def serializes (d : SpikeData) : Bool :=
  !(oscillations d).hasUnserializable

/-- The concrete §8 scenario input (also the demo input at lines 183–192,
without the unread `n_excitatory`/`n_inhibitory` fields). -/
def d6 : SpikeData :=
  { n_neurons := some 10000
    synchrony_index := some 0.55
    mean_firing_rate := some 15.0
    recurrence_depth := some 6
    network_recurrence := some true
    has_ei_balance := some true
    has_synaptic_plasticity := some true
    has_lateral_inhibition := some true
    has_top_down_connections := some true
    has_attention_mechanism := some false
    population_oscillations := some ⟨some 0.45, some 0.35, some 0.30, []⟩
    information_transfer := some 0.40 }

/-- A record whose only field is a negative `information_transfer`. -/
def dNeg : SpikeData :=
  { emptyRecord with information_transfer := some (-10) }

/-- A record carrying a circular structure under a non-band oscillation
key, on which `json.dumps` raises. -/
def dCirc : SpikeData :=
  { emptyRecord with
      population_oscillations := some ⟨none, none, none, [("loop", .circref)]⟩ }

/-- Two successive calls on one assessor. -/
def callsW : List (SpikeData × String) :=
  [(emptyRecord, "A"), (emptyRecord, "B")]

lemma mkCore_hasUnserializable (d : SpikeData) (t : String) :
    (mkCore d t).hasUnserializable = !serializes d := by
  unfold serializes
  rw [Bool.not_not]
  rfl

lemma assess_eq_ok (s : AssessorState) (d : SpikeData) (t : String)
    (h : serializes d = true) :
    assess_from_spikes s d t =
      ({ assessments := s.assessments ++ [mkAssessment d t],
         proof_chain := s.proof_chain ++ [chainEntry d t] },
       .ok (mkAssessment d t)) := by
  simp only [assess_from_spikes, serializeCoreE]
  rw [mkCore_hasUnserializable, h]
  simp [mkAssessment, chainEntry]

lemma assess_eq_err (s : AssessorState) (d : SpikeData) (t : String)
    (h : serializes d = false) :
    assess_from_spikes s d t = (s, .error .circular) := by
  simp only [assess_from_spikes, serializeCoreE]
  rw [mkCore_hasUnserializable, h]
  simp

lemma assess_ok_inv {s : AssessorState} {d : SpikeData} {t : String}
    {a : Assessment} (hok : (assess_from_spikes s d t).2 = .ok a) :
    serializes d = true ∧ a = mkAssessment d t := by
  cases hser : serializes d with
  | false =>
    rw [assess_eq_err s d t hser] at hok
    simp at hok
  | true =>
    rw [assess_eq_ok s d t hser] at hok
    simp at hok
    exact ⟨rfl, hok.symm⟩

lemma roundHalfEven_nonneg {q : ℚ} (h : 0 ≤ q) : 0 ≤ roundHalfEven q := by
  unfold roundHalfEven
  have h0 : (0:ℤ) ≤ ⌊q⌋ := Int.floor_nonneg.mpr h
  split_ifs <;> omega

lemma roundHalfEven_le {q : ℚ} {m : ℤ} (h : q ≤ (m:ℚ)) : roundHalfEven q ≤ m := by
  have h1 : ⌊q⌋ ≤ m := by simpa using Int.floor_le_floor h
  have h2 : (⌊q⌋:ℚ) ≤ q := Int.floor_le q
  unfold roundHalfEven
  split_ifs with ha hb hc
  · exact h1
  · rcases lt_or_eq_of_le h1 with h3 | h3
    · omega
    · exfalso
      have h4 : q ≤ (⌊q⌋:ℚ) := by rw [h3]; exact h
      linarith
  · exact h1
  · rcases lt_or_eq_of_le h1 with h3 | h3
    · omega
    · exfalso
      have h4 : q ≤ (⌊q⌋:ℚ) := by rw [h3]; exact h
      have h5 : q - (⌊q⌋:ℚ) = 0 := by linarith
      rw [h5] at ha
      norm_num at ha

lemma pyRound_nonneg {x : ℚ} (nd : ℕ) (h : 0 ≤ x) : 0 ≤ pyRound nd x := by
  unfold pyRound
  apply div_nonneg
  · exact_mod_cast roundHalfEven_nonneg (by positivity)
  · positivity

lemma pyRound_le {x : ℚ} (nd m : ℕ) (h : x ≤ (m:ℚ)) : pyRound nd x ≤ (m:ℚ) := by
  unfold pyRound
  rw [div_le_iff₀ (by positivity)]
  have hx : x * 10 ^ nd ≤ ((m * 10 ^ nd : ℤ) : ℚ) := by
    push_cast
    have := mul_le_mul_of_nonneg_right h (by positivity : (0:ℚ) ≤ 10 ^ nd)
    linarith
  calc (roundHalfEven (x * 10 ^ nd) : ℚ)
      ≤ ((m * 10 ^ nd : ℤ) : ℚ) := by exact_mod_cast roundHalfEven_le hx
    _ = (m : ℚ) * 10 ^ nd := by push_cast; ring

/-- Rounding a value of the unit interval stays in the unit interval. -/
lemma pyRound3_mem {x : ℚ} (h : 0 ≤ x ∧ x ≤ 1) :
    0 ≤ pyRound 3 x ∧ pyRound 3 x ≤ 1 :=
  ⟨pyRound_nonneg 3 h.1, by simpa using pyRound_le 3 1 (by simpa using h.2)⟩

lemma rpt_score_mem (d : SpikeData) : 0 ≤ rpt_score d ∧ rpt_score d ≤ 1 := by
  unfold rpt_score
  refine ⟨le_min (by norm_num) ?_, min_le_left _ _⟩
  have t1 : (0:ℚ) ≤ if has_rec d then 0.3 else 0 := by split_ifs <;> norm_num
  have t2 : (0:ℚ) ≤ if rec' d > 3 then 0.2 else 0 := by split_ifs <;> norm_num
  have t3 : (0:ℚ) ≤ if d.has_top_down_connections.getD false then 0.2 else 0 := by
    split_ifs <;> norm_num
  have t4 : (0:ℚ) ≤ if gamma_power d > 0 then 0.3 * min 1 (gamma_power d / 0.5) else 0 := by
    split_ifs with hg
    · exact mul_nonneg (by norm_num)
        (le_min (by norm_num) (div_nonneg (le_of_lt hg) (by norm_num)))
    · exact le_refl 0
  linarith

lemma gwt_score_mem (d : SpikeData) (hit : 0 ≤ d.information_transfer.getD 0) :
    0 ≤ gwt_score d ∧ gwt_score d ≤ 1 := by
  unfold gwt_score
  refine ⟨le_min (by norm_num) ?_, min_le_left _ _⟩
  have t1 : (0:ℚ) ≤ if has_broadcast d then 0.4 else 0 := by split_ifs <;> norm_num
  have t2 : (0:ℚ) ≤ if ignition d then 0.3 else 0 := by split_ifs <;> norm_num
  have t3 : (0:ℚ) ≤ 0.3 * d.information_transfer.getD 0 := mul_nonneg (by norm_num) hit
  linarith

lemma hot_score_mem (d : SpikeData) : 0 ≤ hot_score d ∧ hot_score d ≤ 1 := by
  unfold hot_score
  refine ⟨le_min (by norm_num) ?_, min_le_left _ _⟩
  have t1 : (0:ℚ) ≤ if has_hierarchy d then 0.4 else 0 := by split_ifs <;> norm_num
  have t2 : (0:ℚ) ≤ if d.has_lateral_inhibition.getD false then 0.3 else 0 := by
    split_ifs <;> norm_num
  have t3 : (0:ℚ) ≤ if alpha_power d > 0 then 0.3 * min 1 (alpha_power d / 0.5) else 0 := by
    split_ifs with hg
    · exact mul_nonneg (by norm_num)
        (le_min (by norm_num) (div_nonneg (le_of_lt hg) (by norm_num)))
    · exact le_refl 0
  linarith

lemma pp_score_mem (d : SpikeData) : 0 ≤ pp_score d ∧ pp_score d ≤ 1 := by
  unfold pp_score
  refine ⟨le_min (by norm_num) ?_, min_le_left _ _⟩
  have t1 : (0:ℚ) ≤ if has_stdp d then 0.4 else 0 := by split_ifs <;> norm_num
  have t2 : (0:ℚ) ≤ if d.has_top_down_connections.getD false then 0.3 else 0 := by
    split_ifs <;> norm_num
  have t3 : (0:ℚ) ≤ if theta_power d > 0 then 0.3 * min 1 (theta_power d / 0.5) else 0 := by
    split_ifs with hg
    · exact mul_nonneg (by norm_num)
        (le_min (by norm_num) (div_nonneg (le_of_lt hg) (by norm_num)))
    · exact le_refl 0
  linarith

lemma ast_score_mem (d : SpikeData) : 0 ≤ ast_score d ∧ ast_score d ≤ 1 := by
  unfold ast_score
  refine ⟨le_min (by norm_num) ?_, min_le_left _ _⟩
  have t1 : (0:ℚ) ≤ if has_attention d then 0.5 else 0 := by split_ifs <;> norm_num
  have t2 : (0:ℚ) ≤ if d.has_attention_mechanism.getD false then 0.5 else 0 := by
    split_ifs <;> norm_num
  linarith

lemma getScore_RPT (d : SpikeData) (t : String) :
    getScore (mkCore d t).indicators "RPT" = pyRound 3 (rpt_score d) := rfl

lemma getScore_GWT (d : SpikeData) (t : String) :
    getScore (mkCore d t).indicators "GWT" = pyRound 3 (gwt_score d) := rfl

lemma getScore_HOT (d : SpikeData) (t : String) :
    getScore (mkCore d t).indicators "HOT" = pyRound 3 (hot_score d) := rfl

lemma getScore_PP (d : SpikeData) (t : String) :
    getScore (mkCore d t).indicators "PP" = pyRound 3 (pp_score d) := rfl

lemma getScore_AST (d : SpikeData) (t : String) :
    getScore (mkCore d t).indicators "AST" = pyRound 3 (ast_score d) := rfl

lemma credence_eq (d : SpikeData) :
    credence d =
      0 + pyRound 3 (rpt_score d) * 0.20 + pyRound 3 (gwt_score d) * 0.25 +
        pyRound 3 (hot_score d) * 0.20 + pyRound 3 (pp_score d) * 0.20 +
        pyRound 3 (ast_score d) * 0.15 := rfl

lemma summary_credence_mem (d : SpikeData) (t : String)
    (hit : 0 ≤ d.information_transfer.getD 0) :
    0 ≤ (mkCore d t).summary.credence ∧ (mkCore d t).summary.credence ≤ 100 := by
  have hr := rpt_score_mem d
  have hg := gwt_score_mem d hit
  have hh := hot_score_mem d
  have hp := pp_score_mem d
  have ha := ast_score_mem d
  have br : 0 ≤ pyRound 3 (rpt_score d) ∧ pyRound 3 (rpt_score d) ≤ 1 :=
    ⟨pyRound_nonneg 3 hr.1, by simpa using pyRound_le 3 1 (by simpa using hr.2)⟩
  have bg : 0 ≤ pyRound 3 (gwt_score d) ∧ pyRound 3 (gwt_score d) ≤ 1 :=
    ⟨pyRound_nonneg 3 hg.1, by simpa using pyRound_le 3 1 (by simpa using hg.2)⟩
  have bh : 0 ≤ pyRound 3 (hot_score d) ∧ pyRound 3 (hot_score d) ≤ 1 :=
    ⟨pyRound_nonneg 3 hh.1, by simpa using pyRound_le 3 1 (by simpa using hh.2)⟩
  have bp : 0 ≤ pyRound 3 (pp_score d) ∧ pyRound 3 (pp_score d) ≤ 1 :=
    ⟨pyRound_nonneg 3 hp.1, by simpa using pyRound_le 3 1 (by simpa using hp.2)⟩
  have ba : 0 ≤ pyRound 3 (ast_score d) ∧ pyRound 3 (ast_score d) ≤ 1 :=
    ⟨pyRound_nonneg 3 ha.1, by simpa using pyRound_le 3 1 (by simpa using ha.2)⟩
  have hc0 : 0 ≤ credence d := by
    rw [credence_eq]
    have := br.1; have := bg.1; have := bh.1; have := bp.1; have := ba.1
    nlinarith [br.1, bg.1, bh.1, bp.1, ba.1]
  have hc1 : credence d ≤ 1 := by
    rw [credence_eq]
    nlinarith [br.2, bg.2, bh.2, bp.2, ba.2, br.1, bg.1, bh.1, bp.1, ba.1]
  have e : (mkCore d t).summary.credence = pyRound 1 (credence d * 100) := rfl
  rw [e]
  constructor
  · exact pyRound_nonneg 1 (by nlinarith)
  · have : credence d * 100 ≤ ((100 : ℕ) : ℚ) := by push_cast; nlinarith
    simpa using pyRound_le 1 100 this

/-- Each call leaves the previous history and chain as a prefix: the new
state's lists are the old ones plus (possibly empty) appended tails. -/
lemma assess_fst_append (s : AssessorState) (d : SpikeData) (t : String) :
    ∃ la lc,
      (assess_from_spikes s d t).1.assessments = s.assessments ++ la ∧
      (assess_from_spikes s d t).1.proof_chain = s.proof_chain ++ lc := by
  cases hser : serializes d with
  | false =>
    refine ⟨[], [], ?_, ?_⟩ <;> rw [assess_eq_err s d t hser] <;> simp
  | true =>
    refine ⟨[mkAssessment d t], [chainEntry d t], ?_, ?_⟩ <;>
      rw [assess_eq_ok s d t hser]

lemma take_of_eq_append {α : Type} {l l' ext : List α} (h : l' = l ++ ext) :
    l'.take l.length = l := by
  subst h
  exact List.take_left l ext

lemma take_trans {α : Type} {l₁ l₂ l₃ : List α}
    (h12 : l₂.take l₁.length = l₁) (h23 : l₃.take l₂.length = l₂) :
    l₃.take l₁.length = l₁ := by
  have hlen := congrArg List.length h12
  simp [List.length_take] at hlen
  have hle : l₁.length ≤ l₂.length := by omega
  calc l₃.take l₁.length = (l₃.take l₂.length).take l₁.length := by
        rw [List.take_take, min_eq_left hle]
    _ = l₂.take l₁.length := by rw [h23]
    _ = l₁ := h12

/-- Running any sequence of calls only ever appends: the starting history
and chain survive as prefixes. -/
lemma runCalls_take (calls : List (SpikeData × String)) :
    ∀ s : AssessorState,
      (runCalls s calls).assessments.take s.assessments.length = s.assessments ∧
      (runCalls s calls).proof_chain.take s.proof_chain.length = s.proof_chain := by
  induction calls with
  | nil =>
    intro s
    constructor <;> simp [runCalls]
  | cons c rest ih =>
    intro s
    obtain ⟨la, lc, hla, hlc⟩ := assess_fst_append s c.1 c.2
    obtain ⟨iha, ihc⟩ := ih (assess_from_spikes s c.1 c.2).1
    have hstep : runCalls s (c :: rest) =
        runCalls (assess_from_spikes s c.1 c.2).1 rest := rfl
    rw [hstep]
    exact ⟨take_trans (take_of_eq_append hla) iha,
           take_trans (take_of_eq_append hlc) ihc⟩

/-- When every call in the sequence serializes, each call appends exactly
one entry to each list. -/
lemma runCalls_len (calls : List (SpikeData × String)) :
    ∀ s : AssessorState, (∀ c ∈ calls, serializes c.1 = true) →
      (runCalls s calls).assessments.length = s.assessments.length + calls.length ∧
      (runCalls s calls).proof_chain.length = s.proof_chain.length + calls.length := by
  induction calls with
  | nil =>
    intro s _
    constructor <;> simp [runCalls]
  | cons c rest ih =>
    intro s hall
    have hser : serializes c.1 = true := hall c (by simp)
    obtain ⟨iha, ihc⟩ :=
      ih (assess_from_spikes s c.1 c.2).1 (fun x hx => hall x (by simp [hx]))
    have hstep : runCalls s (c :: rest) =
        runCalls (assess_from_spikes s c.1 c.2).1 rest := rfl
    have ha : (assess_from_spikes s c.1 c.2).1.assessments =
        s.assessments ++ [mkAssessment c.1 c.2] := by
      rw [assess_eq_ok s c.1 c.2 hser]
    have hc2 : (assess_from_spikes s c.1 c.2).1.proof_chain =
        s.proof_chain ++ [chainEntry c.1 c.2] := by
      rw [assess_eq_ok s c.1 c.2 hser]
    have la : (assess_from_spikes s c.1 c.2).1.assessments.length =
        s.assessments.length + 1 := by rw [ha]; simp
    have lc : (assess_from_spikes s c.1 c.2).1.proof_chain.length =
        s.proof_chain.length + 1 := by rw [hc2]; simp
    rw [la] at iha
    rw [lc] at ihc
    rw [hstep]
    constructor
    · rw [iha]; simp only [List.length_cons]; omega
    · rw [ihc]; simp only [List.length_cons]; omega

lemma head?_of_take_one {α : Type} {l : List α} {x : α}
    (h : l.take 1 = [x]) : l.head? = some x := by
  cases l with
  | nil => simp at h
  | cons a as =>
    simp at h
    simp [h]

/-- A non-`"score"` entry raises the count by at most one. -/
lemma countKV_le_succ {x B : ℕ} (h : x ≤ B) (kv : String × PyVal) :
    countKV x kv ≤ B + 1 := by
  unfold countKV
  split <;> omega

/-- A numeric value is never `is True`: it contributes nothing. -/
lemma countKV_num (x : ℕ) (k : String) (q : ℚ) :
    countKV x (k, .num q) = x := by
  simp [countKV, PyVal.isPyTrue]

/-- The count of one theory's record is at most its number of boolean
sub-signals: 2 for RPT (the numeric `feedback_depth` and the `score`
never count). -/
lemma rpt_count_le (d : SpikeData) :
    (((indicatorsOf d).lookup "RPT").getD []).foldl countKV 0 ≤ 2 := by
  show countKV (countKV (countKV (countKV 0
      ("recurrent_processing", .bool (has_rec d)))
      ("feedback_depth", .num (rec' d)))
      ("gamma_oscillations", .bool (decide (gamma_power d > 0.2))))
      ("score", .num (pyRound 3 (rpt_score d))) ≤ 2
  rw [countKV_num]
  exact countKV_le_succ (countKV_le_succ (Nat.le_refl 0) _) _

/-- GWT: 2 boolean sub-signals (`information_transfer` is numeric). -/
lemma gwt_count_le (d : SpikeData) :
    (((indicatorsOf d).lookup "GWT").getD []).foldl countKV 0 ≤ 2 := by
  show countKV (countKV (countKV (countKV 0
      ("global_broadcast", .bool (has_broadcast d)))
      ("ignition_detected", .bool (ignition d)))
      ("information_transfer", .num (d.information_transfer.getD 0)))
      ("score", .num (pyRound 3 (gwt_score d))) ≤ 2
  rw [countKV_num, countKV_num]
  exact countKV_le_succ (countKV_le_succ (Nat.le_refl 0) _) _

/-- HOT: 3 boolean sub-signals. -/
lemma hot_count_le (d : SpikeData) :
    (((indicatorsOf d).lookup "HOT").getD []).foldl countKV 0 ≤ 3 := by
  show countKV (countKV (countKV (countKV 0
      ("hierarchical_processing", .bool (has_hierarchy d)))
      ("lateral_inhibition", .bool (d.has_lateral_inhibition.getD false)))
      ("alpha_modulation", .bool (decide (alpha_power d > 0.2))))
      ("score", .num (pyRound 3 (hot_score d))) ≤ 3
  rw [countKV_num]
  exact countKV_le_succ (countKV_le_succ (countKV_le_succ (Nat.le_refl 0) _) _) _

/-- PP: 3 boolean sub-signals. -/
lemma pp_count_le (d : SpikeData) :
    (((indicatorsOf d).lookup "PP").getD []).foldl countKV 0 ≤ 3 := by
  show countKV (countKV (countKV (countKV 0
      ("synaptic_plasticity", .bool (has_stdp d)))
      ("top_down_predictions", .bool (d.has_top_down_connections.getD false)))
      ("theta_oscillations", .bool (decide (theta_power d > 0.2))))
      ("score", .num (pyRound 3 (pp_score d))) ≤ 3
  rw [countKV_num]
  exact countKV_le_succ (countKV_le_succ (countKV_le_succ (Nat.le_refl 0) _) _) _

/-- AST: 2 boolean sub-signals. -/
lemma ast_count_le (d : SpikeData) :
    (((indicatorsOf d).lookup "AST").getD []).foldl countKV 0 ≤ 2 := by
  show countKV (countKV (countKV 0
      ("attention_mechanism", .bool (has_attention d)))
      ("attention_schema", .bool (d.has_attention_mechanism.getD false)))
      ("score", .num (pyRound 3 (ast_score d))) ≤ 2
  rw [countKV_num]
  exact countKV_le_succ (countKV_le_succ (Nat.le_refl 0) _) _

/-- Only 12 boolean sub-signals exist across the five theories, so the
numerator never exceeds 12. -/
lemma total_ind_le (d : SpikeData) : total_ind d ≤ 12 := by
  have e : total_ind d =
      ((((0 + (((indicatorsOf d).lookup "RPT").getD []).foldl countKV 0) +
        (((indicatorsOf d).lookup "GWT").getD []).foldl countKV 0) +
        (((indicatorsOf d).lookup "HOT").getD []).foldl countKV 0) +
        (((indicatorsOf d).lookup "PP").getD []).foldl countKV 0) +
        (((indicatorsOf d).lookup "AST").getD []).foldl countKV 0 := rfl
  rw [e]
  have h1 := rpt_count_le d
  have h2 := gwt_count_le d
  have h3 := hot_count_le d
  have h4 := pp_count_le d
  have h5 := ast_count_le d
  omega

/-- No count of at most 12 renders as the string `"14"`. -/
lemma repr_ne_14 : ∀ k : ℕ, k ≤ 12 → Nat.repr k ++ "/14" ≠ "14/14" := by
  decide

/-! ## The claims -/

/-- C1, counterexample: the claim "each of the five theory indicators has a
score lying in [0, 1] and the credence lies in [0, 100] for arbitrary real
numeric fields" is false: on the record whose only field is
`information_transfer = -10` the call succeeds, the GWT score is `-3` and
the credence is `-75` — the final `min(1.0, …)` clamps only from above. -/
theorem C1_counterexample :
    (assess_from_spikes SNNConsciousnessAssessor.init dNeg "T").2 =
      .ok (mkAssessment dNeg "T") ∧
    getScore (mkAssessment dNeg "T").core.indicators "GWT" < 0 ∧
    (mkAssessment dNeg "T").core.summary.credence < 0 := by
  refine ⟨by rw [assess_eq_ok _ _ _ (by decide)], by decide, by decide⟩

/-- C1 (amended): for every successful `evaluate` call whose
`information_transfer` (after default substitution) is nonnegative — all
other numeric fields arbitrary — each of the five theory indicators has a
score in [0, 1] and the summary's credence lies in [0, 100]. -/
theorem C1_scores_bounded (s : AssessorState) (d : SpikeData) (t : String)
    (a : Assessment) (hit : 0 ≤ d.information_transfer.getD 0)
    (hok : (assess_from_spikes s d t).2 = .ok a) :
    (∀ th ∈ THEORIES, 0 ≤ getScore a.core.indicators th ∧
        getScore a.core.indicators th ≤ 1) ∧
    0 ≤ a.core.summary.credence ∧ a.core.summary.credence ≤ 100 := by
  obtain ⟨hser, ha⟩ := assess_ok_inv hok
  subst ha
  refine ⟨?_, summary_credence_mem d t hit⟩
  intro th hth
  simp only [THEORIES] at hth
  fin_cases hth
  · rw [show (mkAssessment d t).core.indicators = (mkCore d t).indicators from rfl,
      getScore_RPT]
    exact pyRound3_mem (rpt_score_mem d)
  · rw [show (mkAssessment d t).core.indicators = (mkCore d t).indicators from rfl,
      getScore_GWT]
    exact pyRound3_mem (gwt_score_mem d hit)
  · rw [show (mkAssessment d t).core.indicators = (mkCore d t).indicators from rfl,
      getScore_HOT]
    exact pyRound3_mem (hot_score_mem d)
  · rw [show (mkAssessment d t).core.indicators = (mkCore d t).indicators from rfl,
      getScore_PP]
    exact pyRound3_mem (pp_score_mem d)
  · rw [show (mkAssessment d t).core.indicators = (mkCore d t).indicators from rfl,
      getScore_AST]
    exact pyRound3_mem (ast_score_mem d)

/-- C1, witness: the amended bound instantiated on the empty record. -/
theorem C1_scores_bounded_witness :
    (0 ≤ getScore (mkAssessment emptyRecord "T").core.indicators "GWT" ∧
      getScore (mkAssessment emptyRecord "T").core.indicators "GWT" ≤ 1) ∧
    0 ≤ (mkAssessment emptyRecord "T").core.summary.credence ∧
    (mkAssessment emptyRecord "T").core.summary.credence ≤ 100 := by
  obtain ⟨hs, hc⟩ := C1_scores_bounded SNNConsciousnessAssessor.init emptyRecord
    "T" (mkAssessment emptyRecord "T") (by decide)
    (by rw [assess_eq_ok _ _ _ (by decide)])
  exact ⟨hs "GWT" (by decide), hc⟩

/-- C2: the returned Assessment's `proof` field is `"sha256:"` followed by
the first 32 hex characters of the SHA-256 digest of the canonical
serialization of its own pre-proof content, that same 32-character prefix
is the entry appended to the proof chain, and recomputing the digest from
the returned (unmodified) assessment reproduces it. -/
theorem C2_proof_hash (s : AssessorState) (d : SpikeData) (t : String)
    (a : Assessment) (hok : (assess_from_spikes s d t).2 = .ok a) :
    a.proof = "sha256:" ++ (SHA256.sha256Hex (serializeCore a.core)).take 32 ∧
    (assess_from_spikes s d t).1.proof_chain =
      s.proof_chain ++ [(SHA256.sha256Hex (serializeCore a.core)).take 32] := by
  obtain ⟨hser, ha⟩ := assess_ok_inv hok
  subst ha
  constructor
  · rfl
  · rw [assess_eq_ok s d t hser]
    rfl

/-- C2, witness: the hash wiring on a concrete call. -/
theorem C2_proof_hash_witness :
    (mkAssessment emptyRecord "T").proof =
      "sha256:" ++
        (SHA256.sha256Hex (serializeCore (mkAssessment emptyRecord "T").core)).take 32 ∧
    (assess_from_spikes SNNConsciousnessAssessor.init emptyRecord "T").1.proof_chain =
      ["GENESIS"] ++
        [(SHA256.sha256Hex (serializeCore (mkAssessment emptyRecord "T").core)).take 32] :=
  C2_proof_hash SNNConsciousnessAssessor.init emptyRecord "T"
    (mkAssessment emptyRecord "T") (by rw [assess_eq_ok _ _ _ (by decide)])

/-- C3: the chain starts at the `"GENESIS"` sentinel, each successful call
appends exactly one entry to the chain and one to the history, after N
all-successful calls the lengths are N+1 and N, and previously appended
entries of either sequence are never changed or removed (the old lists
survive as prefixes of the new ones). -/
theorem C3_chain_invariants (s : AssessorState) (d : SpikeData) (t : String)
    (a : Assessment) (calls : List (SpikeData × String)) :
    ((assess_from_spikes s d t).2 = .ok a →
      (assess_from_spikes s d t).1.proof_chain = s.proof_chain ++ [chainEntry d t] ∧
      (assess_from_spikes s d t).1.assessments = s.assessments ++ [a]) ∧
    (runCalls SNNConsciousnessAssessor.init calls).proof_chain.head? =
      some "GENESIS" ∧
    ((∀ c ∈ calls, serializes c.1 = true) →
      (runCalls SNNConsciousnessAssessor.init calls).proof_chain.length =
        calls.length + 1 ∧
      (runCalls SNNConsciousnessAssessor.init calls).assessments.length =
        calls.length) ∧
    (runCalls s calls).proof_chain.take s.proof_chain.length = s.proof_chain ∧
    (runCalls s calls).assessments.take s.assessments.length = s.assessments := by
  refine ⟨?_, ?_, ?_, (runCalls_take calls s).2, (runCalls_take calls s).1⟩
  · intro hok
    obtain ⟨hser, ha⟩ := assess_ok_inv hok
    subst ha
    rw [assess_eq_ok s d t hser]
    exact ⟨rfl, rfl⟩
  · exact head?_of_take_one (runCalls_take calls SNNConsciousnessAssessor.init).2
  · intro hall
    obtain ⟨hl, hc⟩ := runCalls_len calls SNNConsciousnessAssessor.init hall
    constructor
    · rw [hc]
      simp [SNNConsciousnessAssessor.init]
      omega
    · rw [hl]
      simp [SNNConsciousnessAssessor.init]

/-- C3, witness: one call appends one entry; two successful calls leave a
3-entry chain and a 2-entry history headed by the sentinel. -/
theorem C3_chain_invariants_witness :
    ((assess_from_spikes SNNConsciousnessAssessor.init emptyRecord "T").1.proof_chain =
      ["GENESIS"] ++ [chainEntry emptyRecord "T"]) ∧
    (runCalls SNNConsciousnessAssessor.init callsW).proof_chain.head? =
      some "GENESIS" ∧
    (runCalls SNNConsciousnessAssessor.init callsW).proof_chain.length = 3 ∧
    (runCalls SNNConsciousnessAssessor.init callsW).assessments.length = 2 := by
  obtain ⟨h1, h2, h3, _, _⟩ :=
    C3_chain_invariants SNNConsciousnessAssessor.init emptyRecord "T"
      (mkAssessment emptyRecord "T") callsW
  obtain ⟨hlc, hla⟩ := h3 (by decide)
  exact ⟨(h1 (by rw [assess_eq_ok _ _ _ (by decide)])).1, h2, hlc, hla⟩

/-- C4: `evaluate` is total over §3's field set — serializable input gives
a normal return — and every absent field acts exactly as its documented
default: 0 for numerics, false for booleans, the empty mapping for
`population_oscillations` (full assessment equality), and 0 for a missing
band (equality of indicators and summary; the `snn_config` echo reproduces
the caller's mapping verbatim, so only the echo can differ). -/
theorem C4_total_with_defaults (s : AssessorState) (d : SpikeData) (t : String)
    (o : Oscillations) :
    (serializes d = true →
      (assess_from_spikes s d t).2 = .ok (mkAssessment d t)) ∧
    mkCore { d with n_neurons := none } t =
      mkCore { d with n_neurons := some 0 } t ∧
    mkCore { d with synchrony_index := none } t =
      mkCore { d with synchrony_index := some 0 } t ∧
    mkCore { d with mean_firing_rate := none } t =
      mkCore { d with mean_firing_rate := some 0 } t ∧
    mkCore { d with recurrence_depth := none } t =
      mkCore { d with recurrence_depth := some 0 } t ∧
    mkCore { d with network_recurrence := none } t =
      mkCore { d with network_recurrence := some false } t ∧
    mkCore { d with has_ei_balance := none } t =
      mkCore { d with has_ei_balance := some false } t ∧
    mkCore { d with has_synaptic_plasticity := none } t =
      mkCore { d with has_synaptic_plasticity := some false } t ∧
    mkCore { d with has_lateral_inhibition := none } t =
      mkCore { d with has_lateral_inhibition := some false } t ∧
    mkCore { d with has_top_down_connections := none } t =
      mkCore { d with has_top_down_connections := some false } t ∧
    mkCore { d with has_attention_mechanism := none } t =
      mkCore { d with has_attention_mechanism := some false } t ∧
    mkCore { d with information_transfer := none } t =
      mkCore { d with information_transfer := some 0 } t ∧
    mkCore { d with population_oscillations := none } t =
      mkCore { d with population_oscillations := some Oscillations.empty } t ∧
    ((mkCore { d with population_oscillations := some { o with gamma := none } } t).indicators =
      (mkCore { d with population_oscillations := some { o with gamma := some 0 } } t).indicators ∧
     (mkCore { d with population_oscillations := some { o with gamma := none } } t).summary =
      (mkCore { d with population_oscillations := some { o with gamma := some 0 } } t).summary) ∧
    ((mkCore { d with population_oscillations := some { o with theta := none } } t).indicators =
      (mkCore { d with population_oscillations := some { o with theta := some 0 } } t).indicators ∧
     (mkCore { d with population_oscillations := some { o with theta := none } } t).summary =
      (mkCore { d with population_oscillations := some { o with theta := some 0 } } t).summary) ∧
    ((mkCore { d with population_oscillations := some { o with alpha := none } } t).indicators =
      (mkCore { d with population_oscillations := some { o with alpha := some 0 } } t).indicators ∧
     (mkCore { d with population_oscillations := some { o with alpha := none } } t).summary =
      (mkCore { d with population_oscillations := some { o with alpha := some 0 } } t).summary) := by
  refine ⟨fun h => by rw [assess_eq_ok s d t h], rfl, rfl, rfl, rfl, rfl, rfl,
    rfl, rfl, rfl, rfl, rfl, rfl, ⟨rfl, rfl⟩, ⟨rfl, rfl⟩, ⟨rfl, rfl⟩⟩

/-- C4, witness: totality and a default substitution on a concrete call. -/
theorem C4_total_with_defaults_witness :
    (assess_from_spikes SNNConsciousnessAssessor.init emptyRecord "T").2 =
      .ok (mkAssessment emptyRecord "T") ∧
    mkCore { emptyRecord with n_neurons := none } "T" =
      mkCore { emptyRecord with n_neurons := some 0 } "T" := by
  obtain ⟨h1, h2, _⟩ :=
    C4_total_with_defaults SNNConsciousnessAssessor.init emptyRecord "T"
      Oscillations.empty
  exact ⟨h1 (by decide), h2⟩

/-- C5: when canonical serialization of the built assessment fails, the
call fails with that error and neither the history nor the proof chain is
touched — the append is all-or-nothing. -/
theorem C5_no_partial_mutation (s : AssessorState) (d : SpikeData) (t : String) :
    ∀ e, serializeCoreE (mkCore d t) = .error e →
      (assess_from_spikes s d t).1.assessments = s.assessments ∧
      (assess_from_spikes s d t).1.proof_chain = s.proof_chain ∧
      (assess_from_spikes s d t).2 = .error e := by
  intro e he
  have h : assess_from_spikes s d t = (s, .error e) := by
    simp only [assess_from_spikes]
    rw [he]
  rw [h]
  exact ⟨rfl, rfl, rfl⟩

/-- C5, witness: a circular value under a non-band oscillation key makes
the call fail and leaves the fresh assessor untouched. -/
theorem C5_no_partial_mutation_witness :
    (assess_from_spikes SNNConsciousnessAssessor.init dCirc "T").1.assessments = [] ∧
    (assess_from_spikes SNNConsciousnessAssessor.init dCirc "T").1.proof_chain =
      ["GENESIS"] ∧
    (assess_from_spikes SNNConsciousnessAssessor.init dCirc "T").2 =
      .error .circular :=
  C5_no_partial_mutation SNNConsciousnessAssessor.init dCirc "T" .circular rfl

/-- C6: on the concrete §8 input, RPT's score is 0.97, GWT's broadcast is
detected, ignition is not (synchrony 0.55 fails the 0.6 gate), GWT's score
is 0.52, and the wrapped adapter's `status().assessments` grows by exactly
one. -/
theorem C6_concrete_scenario (s : AssessorState) (t : String) :
    (assess_from_spikes s d6 t).2 = .ok (mkAssessment d6 t) ∧
    getScore (mkAssessment d6 t).core.indicators "RPT" = 0.97 ∧
    getScore (mkAssessment d6 t).core.indicators "GWT" = 0.52 ∧
    (((mkAssessment d6 t).core.indicators.lookup "GWT").getD []).lookup
      "global_broadcast" = some (.bool true) ∧
    (((mkAssessment d6 t).core.indicators.lookup "GWT").getD []).lookup
      "ignition_detected" = some (.bool false) ∧
    (EIRABridge.status (assess_from_spikes s d6 t).1).assessments =
      (EIRABridge.status s).assessments + 1 := by
  have hser : serializes d6 = true := by decide
  refine ⟨by rw [assess_eq_ok s d6 t hser], ?_, ?_, rfl, rfl, ?_⟩
  · rw [show (mkAssessment d6 t).core.indicators = (mkCore d6 t).indicators from rfl,
      getScore_RPT]
    decide
  · rw [show (mkAssessment d6 t).core.indicators = (mkCore d6 t).indicators from rfl,
      getScore_GWT]
    decide
  · rw [assess_eq_ok s d6 t hser]
    simp [EIRABridge.status]

/-- C7: the empty record yields five scores of 0, a credence of 0, and the
summary string `"0/14"`. -/
theorem C7_empty_record (s : AssessorState) (t : String) :
    (assess_from_spikes s emptyRecord t).2 = .ok (mkAssessment emptyRecord t) ∧
    getScore (mkAssessment emptyRecord t).core.indicators "RPT" = 0 ∧
    getScore (mkAssessment emptyRecord t).core.indicators "GWT" = 0 ∧
    getScore (mkAssessment emptyRecord t).core.indicators "HOT" = 0 ∧
    getScore (mkAssessment emptyRecord t).core.indicators "PP" = 0 ∧
    getScore (mkAssessment emptyRecord t).core.indicators "AST" = 0 ∧
    (mkAssessment emptyRecord t).core.summary.credence = 0 ∧
    (mkAssessment emptyRecord t).core.summary.satisfied_indicators = "0/14" := by
  refine ⟨by rw [assess_eq_ok s emptyRecord t (by decide)],
    ?_, ?_, ?_, ?_, ?_, ?_, ?_⟩
  · rw [show (mkAssessment emptyRecord t).core.indicators =
        (mkCore emptyRecord t).indicators from rfl, getScore_RPT]
    decide
  · rw [show (mkAssessment emptyRecord t).core.indicators =
        (mkCore emptyRecord t).indicators from rfl, getScore_GWT]
    decide
  · rw [show (mkAssessment emptyRecord t).core.indicators =
        (mkCore emptyRecord t).indicators from rfl, getScore_HOT]
    decide
  · rw [show (mkAssessment emptyRecord t).core.indicators =
        (mkCore emptyRecord t).indicators from rfl, getScore_PP]
    decide
  · rw [show (mkAssessment emptyRecord t).core.indicators =
        (mkCore emptyRecord t).indicators from rfl, getScore_AST]
    decide
  · rw [show (mkAssessment emptyRecord t).core.summary.credence =
        pyRound 1 (credence emptyRecord * 100) from rfl]
    decide
  · rw [show (mkAssessment emptyRecord t).core.summary.satisfied_indicators =
        Nat.repr (total_ind emptyRecord) ++ "/14" from rfl]
    decide

/-- C8: the satisfied-indicator summary always renders some count over the
literal denominator `"14"`, whatever the input. -/
theorem C8_denominator_fixed (s : AssessorState) (d : SpikeData) (t : String)
    (a : Assessment) (hok : (assess_from_spikes s d t).2 = .ok a) :
    ∃ k : ℕ, a.core.summary.satisfied_indicators = Nat.repr k ++ "/14" := by
  obtain ⟨_, ha⟩ := assess_ok_inv hok
  subst ha
  exact ⟨total_ind d, rfl⟩

/-- C8, witness: the denominator on a concrete call. -/
theorem C8_denominator_fixed_witness :
    ∃ k : ℕ, (mkAssessment emptyRecord "T").core.summary.satisfied_indicators =
      Nat.repr k ++ "/14" :=
  C8_denominator_fixed SNNConsciousnessAssessor.init emptyRecord "T"
    (mkAssessment emptyRecord "T") (by rw [assess_eq_ok _ _ _ (by decide)])

/-- C9: byte-identical inputs yield identical `indicators` and `summary`,
whatever the assessor states and the two call times. -/
theorem C9_deterministic (s₁ s₂ : AssessorState) (d : SpikeData)
    (t₁ t₂ : String) (a₁ a₂ : Assessment)
    (h₁ : (assess_from_spikes s₁ d t₁).2 = .ok a₁)
    (h₂ : (assess_from_spikes s₂ d t₂).2 = .ok a₂) :
    a₁.core.indicators = a₂.core.indicators ∧
    a₁.core.summary = a₂.core.summary := by
  obtain ⟨_, e₁⟩ := assess_ok_inv h₁
  obtain ⟨_, e₂⟩ := assess_ok_inv h₂
  subst e₁
  subst e₂
  exact ⟨rfl, rfl⟩

/-- C9, witness: two calls on fresh assessors at different timestamps. -/
theorem C9_deterministic_witness :
    (mkAssessment emptyRecord "2025-01-01").core.indicators =
      (mkAssessment emptyRecord "2025-01-02").core.indicators ∧
    (mkAssessment emptyRecord "2025-01-01").core.summary =
      (mkAssessment emptyRecord "2025-01-02").core.summary :=
  C9_deterministic SNNConsciousnessAssessor.init SNNConsciousnessAssessor.init
    emptyRecord "2025-01-01" "2025-01-02" (mkAssessment emptyRecord "2025-01-01")
    (mkAssessment emptyRecord "2025-01-02")
    (by rw [assess_eq_ok _ _ _ (by decide)])
    (by rw [assess_eq_ok _ _ _ (by decide)])

/-- C10: the numerator counts only sub-signals that are literally the
boolean `True` (numeric sub-signals never contribute), only 12 boolean
sub-signals exist across the five indicators, so the numerator is at most
12 and `"14/14"` is unattainable. -/
theorem C10_numerator_max_12 (s : AssessorState) (d : SpikeData) (t : String)
    (a : Assessment) (hok : (assess_from_spikes s d t).2 = .ok a) :
    a.core.summary.satisfied_indicators = Nat.repr (total_ind d) ++ "/14" ∧
    total_ind d ≤ 12 ∧
    a.core.summary.satisfied_indicators ≠ "14/14" := by
  obtain ⟨_, ha⟩ := assess_ok_inv hok
  subst ha
  exact ⟨rfl, total_ind_le d, repr_ne_14 (total_ind d) (total_ind_le d)⟩

/-- C10, witness: the numerator bound on a concrete call. -/
theorem C10_numerator_max_12_witness :
    (mkAssessment emptyRecord "T").core.summary.satisfied_indicators =
      Nat.repr (total_ind emptyRecord) ++ "/14" ∧
    total_ind emptyRecord ≤ 12 ∧
    (mkAssessment emptyRecord "T").core.summary.satisfied_indicators ≠ "14/14" :=
  C10_numerator_max_12 SNNConsciousnessAssessor.init emptyRecord "T"
    (mkAssessment emptyRecord "T") (by rw [assess_eq_ok _ _ _ (by decide)])

end

end Orion
